import Mathlib

/-
Shallow embedding of the video-analysis pipeline of the `inferencia-io`
repository: the helper `get_iso_639_1_code` (src/challenge/helpers.py), the
`WhisperTranscriptionService` (src/challenge/graph/agents/services/whisper.py),
the three graph nodes (src/challenge/graph/agents/nodes.py) and the graph
wiring (src/challenge/graph/agents/graph.py).

External effects are made explicit:
- the file system is a value of type `FS` threaded through the service calls,
  together with the trace of `os.remove` invocations;
- the yt-dlp download, the ffmpeg extraction, the ffprobe duration probe and
  the Whisper / LLM API calls are parameters (oracles) describing the outcome
  of the external call;
- Python exceptions that can escape a function are modelled with `Except`;
  functions that catch every exception inside their body are total.
-/

namespace Challenge

/-- Kinds of Python exceptions that can escape the embedded functions. The
only uncaught exception relevant here is the `AttributeError` raised by
`None.lower()` inside `helpers.get_iso_639_1_code`. -/
inductive PyExc where
  | attributeError
  deriving DecidableEq, Repr

/-- The `LANGUAGE_CODE_MAP` dictionary from `src/challenge/helpers.py`. -/
def LANGUAGE_CODE_MAP : List (String × String) :=
  [("english", "en"), ("spanish", "es"), ("portuguese", "pt"), ("french", "fr"),
   ("german", "de"), ("italian", "it"), ("chinese", "zh"), ("japanese", "ja"),
   ("korean", "ko"), ("arabic", "ar"), ("russian", "ru"), ("hindi", "hi")]

/-- Model of the Python `str.lower()` method: lower-casing each character. -/
def py_lower (s : String) : String :=
  String.mk (s.data.map Char.toLower)

/-- Model of `helpers.get_iso_639_1_code`. The Python parameter is annotated
`str` but callers pass `Optional[str]`; on `None` the body evaluates
`None.lower()`, which raises `AttributeError` (modelled as `Except.error`).
On a string the body returns `LANGUAGE_CODE_MAP.get(code.lower(), None)`:
an `Option String` that is `none` for names outside the table. -/
def get_iso_639_1_code (language_code : Option String) : Except PyExc (Option String) :=
  match language_code with
  | none => Except.error PyExc.attributeError
  | some s => Except.ok (LANGUAGE_CODE_MAP.lookup (py_lower s))

/-- The process file system: the set of existing paths (as a list) and the
trace of `os.remove` calls performed so far. -/
structure FS where
  files : List String
  removed : List String
  deriving DecidableEq, Repr

/-- Model of `os.path.exists`. -/
def os_path_exists (fs : FS) (p : String) : Bool :=
  fs.files.contains p

/-- Model of `os.remove`: the path disappears and the removal is recorded. -/
def os_remove (fs : FS) (p : String) : FS :=
  { files := fs.files.filter (fun q => q ≠ p), removed := fs.removed ++ [p] }

/-- Model of writing a file: the path exists afterwards. -/
def fs_write (fs : FS) (p : String) : FS :=
  { fs with files := p :: fs.files.filter (fun q => q ≠ p) }

/-- Model of `WhisperTranscriptionService.delete_temp_file`: removes the file
only when the argument is truthy (not `None`, not empty) and the path exists. -/
def delete_temp_file (fs : FS) (file_path : Option String) : FS :=
  match file_path with
  | none => fs
  | some p =>
    if p = "" then fs
    else if os_path_exists fs p then os_remove fs p else fs

/-- Pydantic model `WhisperMetadata` from `services/whisper.py`. -/
structure WhisperMetadata where
  title : Option String
  duration_seconds : Option Int
  language_code : Option String
  deriving DecidableEq, Repr

/-- Pydantic model `WhisperResponse` from `services/whisper.py`. -/
structure WhisperResponse where
  transcript : Option String
  metadata : Option WhisperMetadata
  error : Option String := none
  deriving DecidableEq, Repr

/-- The plain metadata dict built by `download_audio` and
`extract_audio_from_video` (keys `title`, `duration_seconds`, `language_code`). -/
structure DlMetadata where
  title : String
  duration_seconds : Option Int
  language_code : Option String
  deriving DecidableEq, Repr

/-- Pydantic model `DownloadAudioResponse` from `services/whisper.py`. -/
structure DownloadAudioResponse where
  audio_path : Option String
  metadata : Option DlMetadata
  success : Bool
  error : Option String := none
  deriving DecidableEq, Repr

/-- Pydantic model `TranscriptAudioResponse` from `services/whisper.py`. -/
structure TranscriptAudioResponse where
  transcript : Option String
  language_code : Option String := none
  success : Bool
  error : Option String := none
  deriving DecidableEq, Repr

/-- Outcome of the external yt-dlp call inside `download_audio`: on success it
carries the values the code reads from the `info` dict — the `title` entry
(defaulting to the empty string), the `duration` entry (defaulting to 0) and
the optional `language` entry; the two failure constructors mirror the two
`except` clauses (`yt_dlp.utils.DownloadError` versus any other exception). -/
inductive DlOutcome where
  | ok (title : String) (duration : Int) (language : Option String)
  | downloadErr (msg : String)
  | otherErr (msg : String)
  deriving DecidableEq, Repr

/-- Outcome of the external Whisper API call inside `transcribe_audio`: on
success it carries `result.text` and `getattr(result, "language", None)`. -/
inductive ApiOutcome where
  | ok (text : String) (language : Option String)
  | err (msg : String)
  deriving DecidableEq, Repr

/-- Outcome of the external ffmpeg subprocess inside `extract_audio_from_video`. -/
inductive ExtractOutcome where
  | ok
  | err (msg : String)
  deriving DecidableEq, Repr

/-- The fixed temp path used by `download_audio`: the file temp_audio.mp3
joined under `self.temp_dir` (the process temp directory). -/
def temp_audio_path : String := "/tmp/temp_audio.mp3"

/-- Model of `WhisperTranscriptionService.download_audio`. On yt-dlp success
the audio file is written at the fixed temp path and the provider language is
normalized to its lower-cased primary subtag: lower-case, split at dashes,
keep the first part, trim whitespace. Both failure branches return a
structured error response and raise nothing. -/
def download_audio (fs : FS) (dl : DlOutcome) (_video_url : String) :
    DownloadAudioResponse × FS :=
  match dl with
  | DlOutcome.ok title duration language =>
    let lang := language.map (fun s => (((py_lower s).splitOn "-").headD "").trim)
    ({ audio_path := some temp_audio_path,
       metadata := some { title := title, duration_seconds := some duration,
                          language_code := lang },
       success := true, error := none },
     fs_write fs temp_audio_path)
  | DlOutcome.downloadErr m =>
    ({ audio_path := none, metadata := none, success := false,
       error := some ("DownloadError while downloading audio: " ++ m) }, fs)
  | DlOutcome.otherErr m =>
    ({ audio_path := none, metadata := none, success := false,
       error := some ("Error while downloading audio: " ++ m) }, fs)

/-- Model of `os.path.splitext(os.path.basename(p))[0]`: the file name without
its directory part and without the extension after the last dot (the
leading-dot corner case of `splitext` is not exercised by the claims). -/
def basename_no_ext (p : String) : String :=
  let base := (p.splitOn "/").getLastD ""
  let parts := base.splitOn "."
  if parts.length ≤ 1 then base else String.intercalate "." parts.dropLast

/-- Model of `WhisperTranscriptionService._get_video_duration_seconds`: an
external ffprobe call whose result (or failure, yielding `None`) is the
`probe` oracle. -/
def get_video_duration_seconds (probe : Option Int) (_file_path : String) :
    Option Int :=
  probe

/-- Model of `WhisperTranscriptionService.extract_audio_from_video`. On ffmpeg
success a fresh audio file `temp_audio_<uuid>.mp3` is written and the metadata
dict carries the sanitized file name, the probed duration and no language. -/
def extract_audio_from_video (fs : FS) (ext : ExtractOutcome) (uuidHex : String)
    (probe : Option Int) (video_path : String) : DownloadAudioResponse × FS :=
  let audio_path := "/tmp/temp_audio_" ++ uuidHex ++ ".mp3"
  match ext with
  | ExtractOutcome.ok =>
    ({ audio_path := some audio_path,
       metadata := some { title := basename_no_ext video_path,
                          duration_seconds := get_video_duration_seconds probe video_path,
                          language_code := none },
       success := true, error := none },
     fs_write fs audio_path)
  | ExtractOutcome.err m =>
    ({ audio_path := none, metadata := none, success := false,
       error := some ("Error extracting audio from video: " ++ m) }, fs)

/-- Model of `WhisperTranscriptionService.transcribe_audio`. The `try` block
opens the file (failing when it does not exist) and performs the API call; the
`except Exception` clause converts every failure into an error response, and
the `finally` clause calls `delete_temp_file(audio_path)` on every exit path.
The function never raises, hence its total type. -/
def transcribe_audio (fs : FS) (api : ApiOutcome) (audio_path : String) :
    TranscriptAudioResponse × FS :=
  let resp : TranscriptAudioResponse :=
    if os_path_exists fs audio_path then
      match api with
      | ApiOutcome.ok text language =>
        { transcript := some text, language_code := language,
          success := true, error := none }
      | ApiOutcome.err m =>
        { transcript := none, language_code := none, success := false,
          error := some m }
    else
      { transcript := none, language_code := none, success := false,
        error := some ("No such file or directory: " ++ audio_path) }
  (resp, delete_temp_file fs (some audio_path))

/-- Model of `WhisperTranscriptionService.get_transcript` (remote composition):
download, then transcribe, then build `WhisperMetadata` from the download
metadata dict only. The detected language of the transcription step is never
consulted here. No exception can escape. -/
def get_transcript (fs : FS) (dl : DlOutcome) (api : ApiOutcome)
    (video_url : String) : WhisperResponse × FS :=
  let dres := download_audio fs dl video_url
  let download_response := dres.1
  let fs1 := dres.2
  if download_response.success then
    let tres := transcribe_audio fs1 api (download_response.audio_path.getD "")
    let transcript_response := tres.1
    let fs2 := delete_temp_file tres.2 download_response.audio_path
    let md := download_response.metadata.getD
      { title := "", duration_seconds := none, language_code := none }
    let metadata : WhisperMetadata :=
      { title := some md.title, duration_seconds := md.duration_seconds,
        language_code := md.language_code }
    ({ transcript := transcript_response.transcript, metadata := some metadata,
       error := transcript_response.error }, fs2)
  else
    let fs2 := delete_temp_file fs1 download_response.audio_path
    ({ transcript := none, metadata := none, error := download_response.error }, fs2)

/-- Model of `WhisperTranscriptionService.get_transcript_from_file` (local
composition): ffmpeg extraction, then transcription, then a `WhisperMetadata`
whose `language_code` is `get_iso_639_1_code(transcript_response.language_code)`.
That call raises `AttributeError` whenever the transcription step supplied no
detected language (in particular whenever the API call failed), and nothing in
this function catches it, hence the `Except` result type. -/
def get_transcript_from_file (fs : FS) (ext : ExtractOutcome) (uuidHex : String)
    (probe : Option Int) (api : ApiOutcome) (video_path : String) :
    Except PyExc (WhisperResponse × FS) :=
  let dres := extract_audio_from_video fs ext uuidHex probe video_path
  let download_response := dres.1
  let fs1 := dres.2
  if download_response.success then
    let tres := transcribe_audio fs1 api (download_response.audio_path.getD "")
    let transcript_response := tres.1
    let fs2 := tres.2
    match get_iso_639_1_code transcript_response.language_code with
    | Except.error e => Except.error e
    | Except.ok lang =>
      let md := download_response.metadata.getD
        { title := "", duration_seconds := none, language_code := none }
      let metadata : WhisperMetadata :=
        { title := some md.title,
          duration_seconds := get_video_duration_seconds probe video_path,
          language_code := lang }
      let fs3 := delete_temp_file fs2 (some video_path)
      Except.ok ({ transcript := transcript_response.transcript,
                   metadata := some metadata,
                   error := transcript_response.error }, fs3)
  else
    let fs2 := delete_temp_file fs1 (some video_path)
    let fs3 := delete_temp_file fs2 download_response.audio_path
    Except.ok ({ transcript := none, metadata := none,
                 error := download_response.error }, fs3)

/-- Schema `SentimentAnalysis` from `nodes.py` (the parsed LLM response for
the sentiment node). Scores are modelled as rationals. -/
structure SentimentAnalysis where
  sentiment : String
  sentiment_score : Rat
  tone : String
  deriving DecidableEq, Repr

/-- Schema `KeyPointsExtraction` from `nodes.py` (the parsed LLM response for
the structuring node). The field is a plain `list[str]`: the schema carries no
length constraint, only a description asking for exactly 3 points. -/
structure KeyPointsExtraction where
  key_points : List String
  deriving DecidableEq, Repr

/-- The `video_metadata` block of the `final_result` dict built by
`structuring_node`. Values read back from the state keep their
possibly-`None` Python type. -/
structure VideoMetaBlock where
  title : Option String
  duration_seconds : Option Int
  language_code : Option String
  deriving DecidableEq, Repr

/-- The `analysis` block of the `final_result` dict built by
`structuring_node`. -/
structure AnalysisBlock where
  sentiment : String
  sentiment_score : Rat
  tone : String
  key_points : List String
  deriving DecidableEq, Repr

/-- The `final_result` dict built by `structuring_node`. -/
structure FinalResult where
  video_metadata : VideoMetaBlock
  analysis : AnalysisBlock
  deriving DecidableEq, Repr

/-- The `VideoAnalysisState` TypedDict from `state.py` as the LangGraph
channel values. For each key, the outer `Option` distinguishes key-present
from key-absent (a `.get` default applies only when absent); for
`transcript`, `title`, `duration_seconds` and `language_code` the stored
Python value may itself be `None`, hence the inner `Option`. `video_url` is
always supplied by both entry points (`views.py` passes it on every
`graph.invoke`), and `extraction_node` reads it with a mandatory
subscript access. -/
structure VideoAnalysisState where
  video_url : String
  video_path : Option String
  transcript : Option (Option String)
  title : Option (Option String)
  duration_seconds : Option (Option Int)
  language_code : Option (Option String)
  sentiment : Option String
  sentiment_score : Option Rat
  tone : Option String
  key_points : Option (List String)
  final_result : Option FinalResult
  errors : Option (List String)
  status : Option String
  deriving DecidableEq, Repr

/-- A partial state update returned by a node: `none` means the key is absent
from the returned dict. The `metadata` key returned by `extraction_node` is
not modelled because `VideoAnalysisState` declares no such channel. -/
structure StatePatch where
  transcript : Option (Option String) := none
  title : Option (Option String) := none
  duration_seconds : Option (Option Int) := none
  language_code : Option (Option String) := none
  sentiment : Option String := none
  sentiment_score : Option Rat := none
  tone : Option String := none
  key_points : Option (List String) := none
  final_result : Option FinalResult := none
  errors : Option (List String) := none
  status : Option String := none
  deriving DecidableEq, Repr

/-- LangGraph last-value channel update for one key. -/
def set_key {α : Type} (patch : Option α) (old : Option α) : Option α :=
  match patch with
  | some v => some v
  | none => old

/-- Merging a node result into the shared state (LangGraph last-value
channels, one per TypedDict key). -/
def applyPatch (s : VideoAnalysisState) (p : StatePatch) : VideoAnalysisState :=
  { video_url := s.video_url,
    video_path := s.video_path,
    transcript := set_key p.transcript s.transcript,
    title := set_key p.title s.title,
    duration_seconds := set_key p.duration_seconds s.duration_seconds,
    language_code := set_key p.language_code s.language_code,
    sentiment := set_key p.sentiment s.sentiment,
    sentiment_score := set_key p.sentiment_score s.sentiment_score,
    tone := set_key p.tone s.tone,
    key_points := set_key p.key_points s.key_points,
    final_result := set_key p.final_result s.final_result,
    errors := set_key p.errors s.errors,
    status := set_key p.status s.status }

/-- Python truthiness of an `Optional[str]`: `None` and the empty string are
falsy. -/
def str_truthy : Option String → Bool
  | some s => s ≠ ""
  | none => false

/-- The success-branch dict returned by `extraction_node`: transcript plus the
three metadata fields with the literal defaults used when `result.metadata`
is `None`. -/
def extraction_success_patch (result : WhisperResponse) : StatePatch :=
  { transcript := some result.transcript,
    title := some (match result.metadata with
      | some m => m.title
      | none => some ""),
    duration_seconds := some (match result.metadata with
      | some m => m.duration_seconds
      | none => some 0),
    language_code := some (match result.metadata with
      | some m => m.language_code
      | none => some "unknown"),
    status := some "extracted" }

/-- Model of `extraction_node` from `nodes.py`. The node reads
`state["video_url"]`, instantiates `WhisperTranscriptionService` and calls
`service.get_transcript(video_url)`. Both service compositions are passed as
oracles so that the acquisition-path choice can be stated; the source body
never reads `state["video_path"]` and never calls `get_transcript_from_file`,
which is reflected here by the second oracle being unused. -/
def extraction_node
    (service_get_transcript _service_get_transcript_from_file : String → WhisperResponse)
    (state : VideoAnalysisState) : StatePatch :=
  let result := service_get_transcript state.video_url
  if str_truthy result.error then
    { errors := some [result.error.getD ""], status := some "failed" }
  else
    extraction_success_patch result

/-- The skip dict shared by the two analysis nodes when no transcript is
available. -/
def no_transcript_patch : StatePatch :=
  { errors := some ["No transcript available"], status := some "skipped" }

/-- The truncation expression of `sentiment_analysis_node`:
`transcript[:5000] if len(transcript) > 5000 else transcript`. -/
def sentiment_truncated (transcript : String) : String :=
  if transcript.length > 5000 then transcript.take 5000 else transcript

/-- Model of `sentiment_analysis_node` from `nodes.py`. The LLM chain is an
oracle from the prompt transcript value to either a parsed
`SentimentAnalysis` or the message of the exception caught by the
`except Exception` clause. -/
def sentiment_analysis_node (llm : String → Except String SentimentAnalysis)
    (state : VideoAnalysisState) : StatePatch :=
  match state.transcript.getD none with
  | none => no_transcript_patch
  | some t =>
    if t = "" then no_transcript_patch
    else
      match llm (sentiment_truncated t) with
      | Except.ok r =>
        { sentiment := some r.sentiment, sentiment_score := some r.sentiment_score,
          tone := some r.tone, status := some "analyzed" }
      | Except.error e =>
        { errors := some ["Error analyzing sentiment: " ++ e], status := some "failed" }

/-- The truncation expression of `structuring_node`, duplicated in the source
exactly as in `sentiment_analysis_node`. -/
def structuring_truncated (transcript : String) : String :=
  if transcript.length > 5000 then transcript.take 5000 else transcript

/-- Model of `structuring_node` from `nodes.py`: same skip rule and catch
policy as the sentiment node; on success it returns the parsed
`result.key_points` unchanged together with the assembled `final_result`. -/
def structuring_node (llm : String → Except String KeyPointsExtraction)
    (state : VideoAnalysisState) : StatePatch :=
  match state.transcript.getD none with
  | none => no_transcript_patch
  | some t =>
    if t = "" then no_transcript_patch
    else
      match llm (structuring_truncated t) with
      | Except.ok r =>
        let final_result : FinalResult :=
          { video_metadata :=
              { title := state.title.getD (some ""),
                duration_seconds := state.duration_seconds.getD (some 0),
                language_code := state.language_code.getD (some "unknown") },
            analysis :=
              { sentiment := state.sentiment.getD "",
                sentiment_score := state.sentiment_score.getD 0,
                tone := state.tone.getD "",
                key_points := r.key_points } }
        { key_points := some r.key_points, final_result := some final_result,
          status := some "success" }
      | Except.error e =>
        { errors := some ["Error analyzing structuring: " ++ e], status := some "failed" }

/-- Python truthiness of `state.get("errors")`: truthy exactly when the key
holds a non-empty list. -/
def errors_truthy : Option (List String) → Bool
  | some (_ :: _) => true
  | _ => false

/-- Model of `state.get("status") in status_end` (`None` is never in a list of
strings). -/
def status_in (status : Option String) (status_end : List String) : Bool :=
  match status with
  | some s => status_end.contains s
  | none => false

/-- Model of `should_continue` from `graph.py`; the source gives `status_end`
the default value `["failed", "skipped"]`, passed explicitly here. -/
def should_continue (state : VideoAnalysisState) (status_end : List String) : String :=
  if errors_truthy state.errors || status_in state.status status_end then "end"
  else "continue"

/-- Model of `should_continue_after_extraction` from `graph.py`. -/
def should_continue_after_extraction (state : VideoAnalysisState) : String :=
  should_continue state ["failed", "skipped"]

/-- Model of `should_continue_after_sentiment` from `graph.py`. -/
def should_continue_after_sentiment (state : VideoAnalysisState) : String :=
  should_continue state ["failed", "skipped"]

/-- The external collaborators of one pipeline run, bundled: the two
transcription compositions as seen by `extraction_node`, and the two LLM
chains. -/
structure Services where
  remote_transcript : String → WhisperResponse
  file_transcript : String → WhisperResponse
  sentiment_llm : String → Except String SentimentAnalysis
  structuring_llm : String → Except String KeyPointsExtraction

/-- The run-state after the extraction node has been applied. -/
def state_after_extraction (svc : Services) (s0 : VideoAnalysisState) :
    VideoAnalysisState :=
  applyPatch s0 (extraction_node svc.remote_transcript svc.file_transcript s0)

/-- The run-state after the sentiment node has been applied (meaningful for
the run when the extraction gate answered `continue`). -/
def state_after_sentiment (svc : Services) (s0 : VideoAnalysisState) :
    VideoAnalysisState :=
  let s1 := state_after_extraction svc s0
  applyPatch s1 (sentiment_analysis_node svc.sentiment_llm s1)

/-- The tail of the compiled graph starting at the sentiment node: sentiment,
conditional edge, then structuring (whose outgoing edge is unconditional). -/
def run_from_sentiment (svc : Services) (s1 : VideoAnalysisState) :
    VideoAnalysisState :=
  let s2 := applyPatch s1 (sentiment_analysis_node svc.sentiment_llm s1)
  if should_continue_after_sentiment s2 = "continue" then
    applyPatch s2 (structuring_node svc.structuring_llm s2)
  else s2

/-- Model of invoking the graph compiled by `create_video_analysis_graph`:
entry point `extraction`, conditional edge to `sentiment_analysis`,
conditional edge to `structuring`, then `END`. -/
def run_graph (svc : Services) (s0 : VideoAnalysisState) : VideoAnalysisState :=
  let s1 := state_after_extraction svc s0
  if should_continue_after_extraction s1 = "continue" then run_from_sentiment svc s1
  else s1

/-- The initial state supplied by the two views: only the locator keys are
set (`graph.invoke({"video_url": ...})`, optionally with `"video_path"`). -/
def invoke_state (video_url : String) (video_path : Option String) :
    VideoAnalysisState :=
  { video_url := video_url, video_path := video_path, transcript := none,
    title := none, duration_seconds := none, language_code := none,
    sentiment := none, sentiment_score := none, tone := none,
    key_points := none, final_result := none, errors := none, status := none }

/-- The halting condition of `should_continue`: errors truthy or status in
the terminal set. -/
def halted (s : VideoAnalysisState) : Bool :=
  errors_truthy s.errors || status_in s.status ["failed", "skipped"]

/- Concrete inputs used by witnesses and counterexamples below. -/

/-- A file system holding one uploaded video clip. -/
def fs_with_clip : FS := { files := ["/tmp/clip.mp4"], removed := [] }

/-- An empty file system. -/
def fs_empty : FS := { files := [], removed := [] }

/-- A file system holding one temp audio artifact. -/
def fs_with_audio : FS := { files := ["/tmp/a.mp3"], removed := [] }

/-- The initial state of an upload run, as built by `VideoAnalysisUploadView`:
both locator keys are set. -/
def upload_state : VideoAnalysisState :=
  invoke_state "upload://clip.mp4" (some "/tmp/clip.mp4")

/-- A remote composition oracle whose download fails. -/
def remote_oracle_fail : String → WhisperResponse :=
  fun _ => { transcript := none, metadata := none,
             error := some "DownloadError while downloading audio: not a url" }

/-- A local composition oracle that succeeds. -/
def file_oracle_ok : String → WhisperResponse :=
  fun _ => { transcript := some "local transcript",
             metadata := some { title := some "clip", duration_seconds := some 10,
                                language_code := some "en" },
             error := none }

/-- A second local composition oracle with a different successful result. -/
def file_oracle_alt : String → WhisperResponse :=
  fun _ => { transcript := some "a different local transcript", metadata := none,
             error := none }

/-- Services whose remote download fails, used for the frozen-run witness. -/
def c3_services : Services :=
  { remote_transcript := remote_oracle_fail,
    file_transcript := file_oracle_ok,
    sentiment_llm := fun _ => Except.error "llm unavailable",
    structuring_llm := fun _ => Except.error "llm unavailable" }

/-- A YouTube-style initial state. -/
def c3_start : VideoAnalysisState :=
  invoke_state "https://www.youtube.com/watch?v=x" none

/-- Services whose remote download fails with the generic error kind. -/
def c4_services : Services :=
  { remote_transcript := fun _ =>
      { transcript := none, metadata := none,
        error := some "Error while downloading audio: timeout" },
    file_transcript := file_oracle_ok,
    sentiment_llm := fun _ => Except.error "llm unavailable",
    structuring_llm := fun _ => Except.error "llm unavailable" }

/-- A second YouTube-style initial state. -/
def c4_start : VideoAnalysisState :=
  invoke_state "https://www.youtube.com/watch?v=y" none

/-- A state whose status is already the terminal `failed`. -/
def failed_state : VideoAnalysisState :=
  { invoke_state "https://www.youtube.com/watch?v=z" none with status := some "failed" }

/-- A run-state holding a short transcript, as the structuring node sees it. -/
def structuring_state_short : VideoAnalysisState :=
  { invoke_state "u" none with transcript := some (some "Great video about Lean.") }

/-- A structuring LLM oracle whose parsed response has a single key point. -/
def one_point_llm : String → Except String KeyPointsExtraction :=
  fun _ => Except.ok { key_points := ["only point"] }

/-- A parsed structuring response with three key points. -/
def three_points : KeyPointsExtraction :=
  { key_points := ["First point.", "Second point.", "N/A"] }

/-- A structuring LLM oracle returning `three_points`. -/
def three_point_llm : String → Except String KeyPointsExtraction :=
  fun _ => Except.ok three_points

/-- A transcript of 5001 characters, above the 5000-character cap. -/
def long_string : String := String.mk (List.replicate 5001 'a')

/-- A run-state holding the two-character transcript `hi`. -/
def sentiment_state_hi : VideoAnalysisState :=
  { invoke_state "u" none with transcript := some (some "hi") }

/-- A sentiment LLM oracle constant in its prompt. -/
def sentiment_llm_a : String → Except String SentimentAnalysis :=
  fun _ => Except.ok { sentiment := "positive", sentiment_score := 9 / 10, tone := "calm" }

/-- A sentiment LLM oracle that agrees with `sentiment_llm_a` on the prompt
`hi` and differs elsewhere. -/
def sentiment_llm_b : String → Except String SentimentAnalysis :=
  fun s =>
    if s = "hi" then
      Except.ok { sentiment := "positive", sentiment_score := 9 / 10, tone := "calm" }
    else Except.error "diverges"

/-- A run-state holding the transcript `ok`, for the structuring node. -/
def structuring_state_ok : VideoAnalysisState :=
  { invoke_state "u" none with transcript := some (some "ok") }

/-- A structuring LLM oracle constant in its prompt. -/
def structuring_llm_a : String → Except String KeyPointsExtraction :=
  fun _ => Except.ok three_points

/-- A structuring LLM oracle that agrees with `structuring_llm_a` on the
prompt `ok` and differs elsewhere. -/
def structuring_llm_b : String → Except String KeyPointsExtraction :=
  fun s => if s = "ok" then Except.ok three_points else Except.error "diverges"

/-- Helper: an association-list lookup misses when the key is among none of
the stored keys. -/
theorem lookup_eq_none_of_contains_false (l : List (String × String)) (a : String)
    (h : (List.map Prod.fst l).contains a = false) : l.lookup a = none := by
  induction l with
  | nil => rfl
  | cons p tail ih =>
    obtain ⟨k, v⟩ := p
    simp only [List.map_cons, List.contains_cons, Bool.or_eq_false_iff] at h
    simp [List.lookup, h.1, ih h.2]

/-- Helper: the two conditional-edge functions literally evaluate the shared
halting condition. -/
theorem should_continue_after_extraction_eq (s : VideoAnalysisState) :
    should_continue_after_extraction s = if halted s then "end" else "continue" := rfl

/-- Helper: same for the gate after the sentiment node. -/
theorem should_continue_after_sentiment_eq (s : VideoAnalysisState) :
    should_continue_after_sentiment s = if halted s then "end" else "continue" := rfl

/-- C1: the claim says a run supplying a local `video_path` uses
`get_transcript_from_file`, and only URL-runs use `get_transcript`. The code
violates this: `extraction_node` reads only `state["video_url"]` and always
calls `service.get_transcript`, so the upload run (which carries
`video_path`) is processed by the remote download path, its result is the
remote oracle response, and it is independent of the local composition. -/
theorem C1_upload_run_still_uses_remote_path :
    extraction_node remote_oracle_fail file_oracle_ok upload_state =
      { errors := some ["DownloadError while downloading audio: not a url"],
        status := some "failed" } ∧
    extraction_node remote_oracle_fail file_oracle_ok upload_state =
      extraction_node remote_oracle_fail file_oracle_alt upload_state ∧
    upload_state.video_path = some "/tmp/clip.mp4" :=
  ⟨rfl, rfl, rfl⟩

/-- C2: the claim says no failure of the transcription boundary ever
propagates an exception. `transcribe_audio` itself does catch every failure
and returns an error result (second conjunct), but the composition
`get_transcript_from_file` calls `get_iso_639_1_code` on the detected
language, which is `None` exactly when transcription failed, and
`None.lower()` raises an `AttributeError` that nothing catches: the exception
escapes to the orchestrator (first conjunct). -/
theorem C2_attribute_error_escapes_local_composition :
    get_transcript_from_file fs_with_clip ExtractOutcome.ok "abc123" (some 10)
        (ApiOutcome.err "connection reset") "/tmp/clip.mp4" =
      Except.error PyExc.attributeError ∧
    (transcribe_audio fs_with_audio (ApiOutcome.err "connection reset") "/tmp/a.mp3").1 =
      { transcript := none, language_code := none, success := false,
        error := some "connection reset" } :=
  ⟨rfl, rfl⟩

/-- C5 counterexample: a language name outside the table maps to Python
`None`, not to the string sentinel `unknown` the claim requires. -/
theorem C5_counterexample_no_unknown_sentinel :
    get_iso_639_1_code (some "klingon") = Except.ok none ∧
    (none : Option String) ≠ some "unknown" :=
  ⟨rfl, by decide⟩

/-- C5 amended: normalization is a case-insensitive lookup over full language
names, and every name outside the table maps to `None` (fail-closed, never a
guessed code); the `unknown` sentinel is not produced by this function. -/
theorem C5_amended_unknown_name_maps_to_none (s : String)
    (h : (List.map Prod.fst LANGUAGE_CODE_MAP).contains (py_lower s) = false) :
    get_iso_639_1_code (some s) = Except.ok none ∧
    get_iso_639_1_code (some "English") = Except.ok (some "en") ∧
    get_iso_639_1_code (some "german") = Except.ok (some "de") := by
  refine ⟨?_, rfl, rfl⟩
  simp [get_iso_639_1_code, lookup_eq_none_of_contains_false LANGUAGE_CODE_MAP (py_lower s) h]

/-- C5 amended witness at the concrete out-of-table name `klingon`. -/
theorem C5_amended_unknown_name_maps_to_none_witness :
    get_iso_639_1_code (some "klingon") = Except.ok none ∧
    get_iso_639_1_code (some "English") = Except.ok (some "en") ∧
    get_iso_639_1_code (some "german") = Except.ok (some "de") :=
  C5_amended_unknown_name_maps_to_none "klingon" (by decide)

/-- C6 counterexample: in the remote composition the download supplied no
language and the transcription detected `english`, yet the returned
metadata carries no language code at all: the detected language is not
merged. -/
theorem C6_counterexample_detected_language_not_merged :
    (get_transcript fs_empty (DlOutcome.ok "T" 10 none)
        (ApiOutcome.ok "hello" (some "english")) "u").1 =
      { transcript := some "hello",
        metadata := some { title := some "T", duration_seconds := some 10,
                           language_code := none },
        error := none } ∧
    (none : Option String) ≠ some "english" ∧
    (none : Option String) ≠ some "en" :=
  ⟨rfl, by decide, by decide⟩

/-- C6 amended: in the remote composition the returned metadata always comes
from acquisition alone — `language_code` is the normalized provider language
(possibly `None`) — for every transcription outcome; the transcription step
detected language is never consulted. -/
theorem C6_amended_metadata_language_always_from_acquisition
    (fs : FS) (t : String) (d : Int) (l : Option String) (api : ApiOutcome)
    (u : String) :
    ((get_transcript fs (DlOutcome.ok t d l) api u).1).metadata =
      some { title := some t, duration_seconds := some d,
             language_code := l.map (fun s => (((py_lower s).splitOn "-").headD "").trim) } :=
  rfl

/-- Helper: `errors_truthy` holds exactly on a present, non-empty list. -/
theorem errors_truthy_iff (e : Option (List String)) :
    errors_truthy e = true ↔ ∃ l, e = some l ∧ l ≠ [] := by
  cases e with
  | none => simp [errors_truthy]
  | some l => cases l <;> simp [errors_truthy]

/-- Helper: membership of the status value in the terminal list. -/
theorem status_in_terminal_iff (st : Option String) :
    status_in st ["failed", "skipped"] = true ↔
      st = some "failed" ∨ st = some "skipped" := by
  cases st with
  | none => simp [status_in]
  | some s =>
    simp [status_in, List.contains_cons, List.contains_nil]

/-- Helper: the gate answers `end` exactly on halted states. -/
theorem gate_end_iff_halted (s : VideoAnalysisState) :
    should_continue_after_extraction s = "end" ↔ halted s = true := by
  rw [should_continue_after_extraction_eq]
  cases h : halted s <;> simp [h]

/-- Helper: the halting condition, spelled out. -/
theorem halted_iff (s : VideoAnalysisState) :
    halted s = true ↔
      ((∃ l, s.errors = some l ∧ l ≠ []) ∨ s.status = some "failed" ∨
        s.status = some "skipped") := by
  rw [halted, Bool.or_eq_true, errors_truthy_iff, status_in_terminal_iff]

/-- Helper: a filtered-out element is not contained in the filtered list. -/
theorem contains_filter_ne_self (l : List String) (a : String) :
    (l.filter (fun q => q ≠ a)).contains a = false := by
  rw [Bool.eq_false_iff]
  intro hc
  have hmem : a ∈ l.filter (fun q => q ≠ a) := List.elem_iff.mp hc
  have hne := (List.mem_filter.mp hmem).2
  simp at hne

/-- C3: from a pipeline entry state (the views set only the locator keys, so
`errors` and `status` are absent), the run is frozen once halted: the entry
state itself is not halted; if the state after extraction is halted, the run
result is exactly that state (the sentiment and structuring nodes never run);
and if the state after sentiment is halted, the run result is exactly that
state (structuring never runs). In particular `transcript`, `sentiment`,
`sentiment_score`, `tone` and `key_points` keep their values for the
remainder of the run. -/
theorem C3_halted_state_freezes_run (svc : Services) (s0 : VideoAnalysisState)
    (herr : s0.errors = none) (hst : s0.status = none) :
    halted s0 = false ∧
    (halted (state_after_extraction svc s0) = true →
      run_graph svc s0 = state_after_extraction svc s0) ∧
    (halted (state_after_extraction svc s0) = false →
      halted (state_after_sentiment svc s0) = true →
      run_graph svc s0 = state_after_sentiment svc s0) := by
  refine ⟨?_, ?_, ?_⟩
  · simp [halted, herr, hst, errors_truthy, status_in]
  · intro h
    simp [run_graph, should_continue_after_extraction_eq, h]
  · intro h1 h2
    simp [run_graph, run_from_sentiment, state_after_sentiment,
      should_continue_after_extraction_eq, should_continue_after_sentiment_eq,
      h1] at h2 ⊢
    simp [h2]

/-- C3 witness: a concrete run whose download fails is frozen at the state
after extraction. -/
theorem C3_halted_state_freezes_run_witness :
    halted c3_start = false ∧
    run_graph c3_services c3_start = state_after_extraction c3_services c3_start :=
  ⟨(C3_halted_state_freezes_run c3_services c3_start rfl rfl).1,
   (C3_halted_state_freezes_run c3_services c3_start rfl rfl).2.1 (by decide)⟩

/-- C4: the two conditional-edge functions are the same predicate on every
state; that predicate answers `end` exactly when `errors` is a non-empty list
or `status` is `failed` or `skipped`, and answers `continue` otherwise; in the
compiled graph, `end` after extraction makes the run stop at the
post-extraction state, `continue` proceeds to the sentiment stage, and `end`
after sentiment makes the run stop at the post-sentiment state, skipping
structuring. -/
theorem C4_gate_predicate_symmetric_and_exact :
    (∀ s : VideoAnalysisState,
      should_continue_after_extraction s = should_continue_after_sentiment s ∧
      (should_continue_after_extraction s = "end" ↔
        ((∃ l, s.errors = some l ∧ l ≠ []) ∨ s.status = some "failed" ∨
          s.status = some "skipped")) ∧
      (should_continue_after_extraction s ≠ "end" →
        should_continue_after_extraction s = "continue")) ∧
    (∀ (svc : Services) (s0 : VideoAnalysisState),
      (should_continue_after_extraction (state_after_extraction svc s0) = "end" →
        run_graph svc s0 = state_after_extraction svc s0) ∧
      (should_continue_after_extraction (state_after_extraction svc s0) = "continue" →
        run_graph svc s0 = run_from_sentiment svc (state_after_extraction svc s0))) ∧
    (∀ (svc : Services) (s1 : VideoAnalysisState),
      should_continue_after_sentiment
          (applyPatch s1 (sentiment_analysis_node svc.sentiment_llm s1)) = "end" →
        run_from_sentiment svc s1 =
          applyPatch s1 (sentiment_analysis_node svc.sentiment_llm s1)) := by
  refine ⟨?_, ?_, ?_⟩
  · intro s
    refine ⟨rfl, (gate_end_iff_halted s).trans (halted_iff s), ?_⟩
    rw [should_continue_after_extraction_eq]
    cases h : halted s <;> simp [h]
  · intro svc s0
    constructor
    · intro h
      simp [run_graph, h]
    · intro h
      simp [run_graph, h]
  · intro svc s1 h
    simp [run_from_sentiment, h]

/-- C4 witness: the gate at concrete halted and non-halted states, and the
concrete routing of a failed download run. -/
theorem C4_gate_predicate_symmetric_and_exact_witness :
    should_continue_after_extraction failed_state = "end" ∧
    should_continue_after_extraction c4_start = "continue" ∧
    run_graph c4_services c4_start = state_after_extraction c4_services c4_start :=
  ⟨(C4_gate_predicate_symmetric_and_exact.1 failed_state).2.1.mpr
      (Or.inr (Or.inl rfl)),
   (C4_gate_predicate_symmetric_and_exact.1 c4_start).2.2 (by decide),
   (C4_gate_predicate_symmetric_and_exact.2.1 c4_services c4_start).1 (by decide)⟩

/-- C7 counterexample: a structuring run whose parsed response has one key
point still ends with status `success` and stores that one-element list: the
code never checks the length, so the claimed always-exactly-3 guarantee
fails. -/
theorem C7_counterexample_success_with_fewer_points :
    (structuring_node one_point_llm structuring_state_short).status =
      some "success" ∧
    (structuring_node one_point_llm structuring_state_short).key_points =
      some ["only point"] ∧
    (["only point"] : List String).length ≠ 3 :=
  ⟨rfl, rfl, by decide⟩

/-- C7 amended: on every successful structuring run, `key_points` is exactly
the list parsed from the schema-constrained response — the exactly-3 and
`N/A`-padding requirements live in the prompt text and the schema
description, not in code: the stored length is whatever the response
contained. -/
theorem C7_amended_key_points_are_parsed_list
    (llm : String → Except String KeyPointsExtraction) (st : VideoAnalysisState)
    (t : String) (r : KeyPointsExtraction)
    (ht : st.transcript = some (some t)) (hne : t ≠ "")
    (hllm : llm (structuring_truncated t) = Except.ok r) :
    (structuring_node llm st).status = some "success" ∧
    (structuring_node llm st).key_points = some r.key_points := by
  constructor <;> simp [structuring_node, ht, hne, hllm]

/-- C7 amended witness at a concrete three-point response. -/
theorem C7_amended_key_points_are_parsed_list_witness :
    (structuring_node three_point_llm structuring_state_short).status =
      some "success" ∧
    (structuring_node three_point_llm structuring_state_short).key_points =
      some three_points.key_points :=
  C7_amended_key_points_are_parsed_list three_point_llm structuring_state_short
    "Great video about Lean." three_points rfl (by decide) rfl

/-- C8: the sentiment stage truncation: a non-empty transcript of at most
5000 characters is passed to the LLM chain unmodified, a longer transcript is
cut to exactly its first 5000 characters, and the node output depends on the
LLM chain only through its value at that truncated transcript (the node sends
exactly the truncated transcript and nothing else). -/
theorem C8_sentiment_stage_truncation (t : String) :
    (t ≠ "" → t.length ≤ 5000 → sentiment_truncated t = t) ∧
    (t.length > 5000 →
      sentiment_truncated t = t.take 5000 ∧ (sentiment_truncated t).length = 5000) ∧
    (∀ (llm1 llm2 : String → Except String SentimentAnalysis)
        (st : VideoAnalysisState),
      st.transcript = some (some t) →
      llm1 (sentiment_truncated t) = llm2 (sentiment_truncated t) →
      sentiment_analysis_node llm1 st = sentiment_analysis_node llm2 st) := by
  refine ⟨?_, ?_, ?_⟩
  · intro _ h
    simp [sentiment_truncated, Nat.not_lt.mpr h]
  · intro h
    refine ⟨by simp [sentiment_truncated, h], ?_⟩
    have h2 : (String.take t 5000).length = 5000 := by
      rw [String.take_eq]
      show (List.take 5000 t.data).length = 5000
      rw [List.length_take]
      exact Nat.min_eq_left (Nat.le_of_lt h)
    simp [sentiment_truncated, h, h2]
  · intro llm1 llm2 st ht heq
    by_cases h0 : t = ""
    · simp [sentiment_analysis_node, ht, h0]
    · simp [sentiment_analysis_node, ht, h0, heq]

/-- C8 witness: a short transcript goes through unmodified, a 5001-character
transcript is cut to 5000, and two chains agreeing on the truncated prompt
give identical node results. -/
theorem C8_sentiment_stage_truncation_witness :
    sentiment_truncated "hi" = "hi" ∧
    (sentiment_truncated long_string = long_string.take 5000 ∧
      (sentiment_truncated long_string).length = 5000) ∧
    sentiment_analysis_node sentiment_llm_a sentiment_state_hi =
      sentiment_analysis_node sentiment_llm_b sentiment_state_hi :=
  ⟨(C8_sentiment_stage_truncation "hi").1 (by decide) (by decide),
   (C8_sentiment_stage_truncation long_string).2.1 (by
      rw [show long_string.length = 5001 from List.length_replicate 5001 'a']
      norm_num),
   (C8_sentiment_stage_truncation "hi").2.2 sentiment_llm_a sentiment_llm_b
     sentiment_state_hi rfl rfl⟩

/-- C9: `transcribe_audio` deletes the input audio artifact exactly once on
every outcome (API success or failure alike, via the cleanup that runs on
every exit path): exactly one `os.remove` of the path is appended to the
trace, and afterwards the path no longer exists. -/
theorem C9_transcription_always_deletes_artifact (fs : FS) (api : ApiOutcome)
    (audio_path : String) (hne : audio_path ≠ "")
    (hmem : fs.files.contains audio_path = true) :
    (transcribe_audio fs api audio_path).2.removed = fs.removed ++ [audio_path] ∧
    (transcribe_audio fs api audio_path).2.files.contains audio_path = false := by
  have hdel : delete_temp_file fs (some audio_path) = os_remove fs audio_path := by
    simp only [delete_temp_file, os_path_exists]
    rw [if_neg hne, if_pos hmem]
  constructor
  · show (delete_temp_file fs (some audio_path)).removed = fs.removed ++ [audio_path]
    rw [hdel]
    rfl
  · show (delete_temp_file fs (some audio_path)).files.contains audio_path = false
    rw [hdel]
    exact contains_filter_ne_self fs.files audio_path

/-- C9 witness: a concrete failing transcription still removes the artifact
exactly once and the path is gone. -/
theorem C9_transcription_always_deletes_artifact_witness :
    (transcribe_audio fs_with_audio (ApiOutcome.err "boom") "/tmp/a.mp3").2.removed =
      ["/tmp/a.mp3"] ∧
    (transcribe_audio fs_with_audio (ApiOutcome.err "boom") "/tmp/a.mp3").2.files.contains
      "/tmp/a.mp3" = false :=
  C9_transcription_always_deletes_artifact fs_with_audio (ApiOutcome.err "boom")
    "/tmp/a.mp3" (by decide) (by decide)

/-- C10: the structuring stage applies the same truncation rule as the
sentiment stage — the two truncation expressions agree on every transcript —
with the same bounds: longer than 5000 characters is cut to exactly the first
5000, a non-empty transcript within the cap is sent unmodified, and the
structuring node depends on its LLM chain only through the truncated
transcript. -/
theorem C10_structuring_stage_same_truncation (t : String) :
    structuring_truncated t = sentiment_truncated t ∧
    (t ≠ "" → t.length ≤ 5000 → structuring_truncated t = t) ∧
    (t.length > 5000 →
      structuring_truncated t = t.take 5000 ∧
      (structuring_truncated t).length = 5000) ∧
    (∀ (llm1 llm2 : String → Except String KeyPointsExtraction)
        (st : VideoAnalysisState),
      st.transcript = some (some t) →
      llm1 (structuring_truncated t) = llm2 (structuring_truncated t) →
      structuring_node llm1 st = structuring_node llm2 st) := by
  refine ⟨rfl, ?_, ?_, ?_⟩
  · intro _ h
    simp [structuring_truncated, Nat.not_lt.mpr h]
  · intro h
    refine ⟨by simp [structuring_truncated, h], ?_⟩
    have h2 : (String.take t 5000).length = 5000 := by
      rw [String.take_eq]
      show (List.take 5000 t.data).length = 5000
      rw [List.length_take]
      exact Nat.min_eq_left (Nat.le_of_lt h)
    simp [structuring_truncated, h, h2]
  · intro llm1 llm2 st ht heq
    by_cases h0 : t = ""
    · simp [structuring_node, ht, h0]
    · simp [structuring_node, ht, h0, heq]

/-- C10 witness: the shared-rule equation at a concrete transcript and the
structuring node at two chains agreeing on the truncated prompt. -/
theorem C10_structuring_stage_same_truncation_witness :
    structuring_truncated "ok" = sentiment_truncated "ok" ∧
    structuring_truncated "ok" = "ok" ∧
    structuring_node structuring_llm_a structuring_state_ok =
      structuring_node structuring_llm_b structuring_state_ok :=
  ⟨(C10_structuring_stage_same_truncation "ok").1,
   (C10_structuring_stage_same_truncation "ok").2.1 (by decide) (by decide),
   (C10_structuring_stage_same_truncation "ok").2.2.2 structuring_llm_a
     structuring_llm_b structuring_state_ok rfl rfl⟩

end Challenge
